/-
  Verification of the chemfalcon_chatbot repository.

  Shallow embedding of the deterministic parts of the multi-agent order
  pipeline: the Agent-2 field validators and bulk validation tool
  (agents/request_details.py), the Agent-1 inventory cache
  (agents/product_request.py), the Agent-3 tool dispatch
  (agents/address_purpose.py), the order placement collaborator
  (services/order_placement.py), and the required-field tables
  (services/agent_manager.py and agents/request_details.py).

  Python values arriving through JSON tool-call arguments are modelled by
  `FieldVal` (string / number / null).  Fallible library calls that the
  repository delegates to (float() on strings, datetime.strptime,
  phonenumbers) are modelled as oracle functions in `ValCtx`; a `none`
  result models a raised exception or failed parse.  Machine floats are
  modelled as rationals.  Python str.lower/str.upper/str.strip are
  modelled character-wise (`pyLower`, `pyUpper`, `pyStrip`).
-/
import Mathlib

/-- Python `str.lower`, character-wise. -/
def pyLower (s : String) : String := String.mk (s.data.map Char.toLower)

/-- Python `str.upper`, character-wise. -/
def pyUpper (s : String) : String := String.mk (s.data.map Char.toUpper)

/-- Python `str.strip`: drop whitespace from both ends. -/
def pyStrip (s : String) : String :=
  String.mk (((s.data.dropWhile Char.isWhitespace).reverse.dropWhile Char.isWhitespace).reverse)

/-- A JSON-ish value as passed to the agents' tool functions.
`fNone` models Python `None` / JSON null. -/
inductive FieldVal where
  | fStr (s : String)
  | fNum (q : ℚ)
  | fNone
deriving DecidableEq, Repr

/-- Python truthiness for the modelled values: empty string, zero and
`None` are falsy. -/
def FieldVal.truthy : FieldVal → Bool
  | .fStr s => s ≠ ""
  | .fNum q => q ≠ 0
  | .fNone => false

/-- Python truthiness of an optional string (absent or empty is falsy). -/
def truthyS : Option String → Bool
  | Option.none => false
  | some s => s ≠ ""

/-- Oracles for the library calls the validators delegate to.
`strFloat` models Python `float()` applied to a string (`none` = raises
ValueError), `dateParse` models `datetime.strptime(s, "%Y-%m-%d").date()`
as a day ordinal (`none` = raises ValueError), `today` models
`datetime.now().date()`, and `phoneParse` models
`phonenumbers.parse` + `is_valid_number` (`none` = NumberParseException). -/
structure ValCtx where
  strFloat : String → Option ℚ
  dateParse : String → Option Int
  today : Int
  phoneParse : String → Option Bool

/-- A fixed context used for concrete witness evaluations. -/
def testCtx : ValCtx :=
  { strFloat := fun s => if s = "5" then some 5 else if s = "3" then some 3 else Option.none
    dateParse := fun _ => Option.none
    today := 0
    phoneParse := fun _ => Option.none }

/-- Python `float()` applied to one of the modelled values.  Numbers
convert to themselves, strings go through the `strFloat` oracle, and
`None` raises TypeError (modelled as `none`; every caller catches
ValueError/TypeError). -/
def pyFloat (ctx : ValCtx) : FieldVal → Option ℚ
  | .fNum q => some q
  | .fStr s => ctx.strFloat s
  | .fNone => Option.none

namespace RequestDetails

/-- agents/request_details.py line 20: allowed units. -/
def ALLOWED_UNITS : List String := ["KG", "GAL", "LB", "L"]

/-- Result dictionary of the Agent-2 validators: the `is_valid` flag, the
user-facing message, and (for unit / selection fields) the canonical
normalized value. -/
structure ValidationResult where
  is_valid : Bool
  message : String
  normalized_value : Option String := Option.none
deriving DecidableEq, Repr

/-- agents/request_details.py `validate_unit` (lines 441-457): strip and
uppercase the input, then check membership in `ALLOWED_UNITS`. -/
def validate_unit (unit : String) : ValidationResult :=
  if ALLOWED_UNITS.contains (pyUpper (pyStrip unit)) then
    { is_valid := true
      message := "Unit " ++ pyUpper (pyStrip unit) ++ " is valid"
      normalized_value := some (pyUpper (pyStrip unit)) }
  else
    { is_valid := false
      message := "Invalid unit. Please select from: KG, GAL, LB, L" }

/-- Comparison against the possibly-infinite maximum:
`maxQuantity` defaults to `float('inf')` when absent, modelled as `none`,
which no quantity exceeds. -/
def quantityExceeds (q : ℚ) : Option ℚ → Bool
  | Option.none => false
  | some maxQ => decide (maxQ < q)

/-- agents/request_details.py `validate_quantity` (lines 459-503).
`minQuantity` defaults to 1, `maxQuantity` to infinity; a failed float
conversion of the quantity or either bound lands in the except branch.
Sample requests have no lower bound; all other request types enforce
both bounds. -/
def validate_quantity (ctx : ValCtx) (quantity : FieldVal)
    (product_details : List (String × FieldVal))
    (request_type : String := "") : ValidationResult :=
  match pyFloat ctx quantity,
        pyFloat ctx ((List.lookup "minQuantity" product_details).getD (FieldVal.fNum 1)),
        (match List.lookup "maxQuantity" product_details with
         | Option.none => some Option.none
         | some w => (pyFloat ctx w).map some) with
  | some q, some min_quantity, some max_quantity =>
    if pyLower request_type = "sample" then
      if quantityExceeds q max_quantity then
        { is_valid := false
          message := "Sample quantity exceeds available stock" }
      else
        { is_valid := true
          message := "Sample quantity is valid" }
    else
      if q < min_quantity then
        { is_valid := false
          message := "Quantity must be at least the minimum order quantity" }
      else if quantityExceeds q max_quantity then
        { is_valid := false
          message := "Quantity exceeds available stock" }
      else
        { is_valid := true
          message := "Quantity is valid" }
  | _, _, _ =>
    { is_valid := false
      message := "Invalid quantity format. Please enter a valid number." }

/-- agents/request_details.py `validate_date` (lines 505-527): the string
must parse as YYYY-MM-DD and be strictly after today. -/
def validate_date (ctx : ValCtx) (delivery_date_str : String) : ValidationResult :=
  match ctx.dateParse delivery_date_str with
  | Option.none =>
    { is_valid := false
      message := "Invalid date format. Please use YYYY-MM-DD format" }
  | some delivery_date =>
    if delivery_date ≤ ctx.today then
      { is_valid := false
        message := "Delivery date must be after today" }
    else
      { is_valid := true
        message := "Delivery date " ++ delivery_date_str ++ " is valid" }

/-- agents/request_details.py `validate_selection` options table
(lines 534-539). -/
def options_map (field_name : String) : List String :=
  if field_name = "unit" then ["KG", "GAL", "LB", "L"]
  else if field_name = "incoterm" then ["Ex Factory", "Deliver to Buyer Factory"]
  else if field_name = "mode_of_payment" then ["LC", "TT", "Cash"]
  else if field_name = "packaging_pref" then ["Bulk Tanker", "PP Bag", "Jerry Can", "Drum"]
  else []

/-- agents/request_details.py `validate_selection` (lines 529-560):
case-insensitive membership in the per-field option list; on success the
canonical-cased option is returned. -/
def validate_selection (field_name : String) (selected_value : String) : ValidationResult :=
  let allowed_options := options_map field_name
  let normalized_selected := pyLower (pyStrip selected_value)
  match allowed_options.find? (fun opt => pyLower opt = normalized_selected) with
  | some actual_value =>
    { is_valid := true
      message := "Selected " ++ actual_value ++ " is valid for " ++ field_name
      normalized_value := some actual_value }
  | Option.none =>
    { is_valid := false
      message := "Invalid selection for " ++ field_name }

/-- agents/request_details.py `validate_phone` (lines 563-580), with the
phonenumbers library behaviour supplied by the context oracle. -/
def validate_phone (ctx : ValCtx) (phone : String) : ValidationResult :=
  match ctx.phoneParse (pyStrip phone) with
  | some b =>
    { is_valid := b
      message := if b then "Phone number is valid" else "Invalid phone number format" }
  | Option.none =>
    { is_valid := false
      message := "Unable to parse phone number" }

/-- Result of `calculate_expected_price`. -/
structure PriceResult where
  calculated_value : ℚ
  status : String
deriving DecidableEq, Repr

/-- agents/request_details.py `calculate_expected_price` (lines 582-600):
float-convert both arguments and multiply; a ValueError/TypeError lands in
the except branch returning zero with an error status. -/
def calculate_expected_price (ctx : ValCtx) (quantity price_per_unit : FieldVal) : PriceResult :=
  match pyFloat ctx quantity, pyFloat ctx price_per_unit with
  | some q, some p => { calculated_value := q * p, status := "success" }
  | _, _ => { calculated_value := 0, status := "error" }

/-- agents/request_details.py `get_required_fields` (lines 615-629):
static table mapping the lowercased request type to its required fields,
with a base list for unrecognized types. -/
def field_requirements : List (String × List String) :=
  [("order",  ["unit", "quantity", "price_per_unit", "expected_price", "phone", "incoterm", "mode_of_payment", "packaging_pref", "delivery_date"]),
   ("sample", ["unit", "quantity", "price_per_unit", "expected_price", "phone", "incoterm", "mode_of_payment", "packaging_pref", "delivery_date"]),
   ("quote",  ["unit", "quantity", "price_per_unit", "expected_price", "phone", "incoterm", "mode_of_payment", "packaging_pref", "delivery_date"]),
   ("ppr",    ["unit", "quantity", "price_per_unit", "expected_price", "delivery_date"])]

/-- agents/request_details.py `get_required_fields`: lowercase, look up,
default to the base field list. -/
def get_required_fields (request_type : String) : List String :=
  (List.lookup (pyLower request_type) field_requirements).getD
    ["unit", "quantity", "price_per_unit", "expected_price"]

/-- The per-field validator dispatch of the bulk tool
`extract_and_validate_all_fields` (agents/request_details.py lines
278-292): unit, quantity, delivery_date, the three selection fields and
phone run their validators; any other field is accepted as-is.  A `none`
result models a raised exception (e.g. a non-string value reaching a
string validator), which aborts the tool call and is caught by the
handler's outer except. -/
def validateFieldOpt (ctx : ValCtx) (request_type : String)
    (product_details : List (String × FieldVal))
    (field_name : String) (field_value : FieldVal) : Option ValidationResult :=
  if field_name = "unit" then
    match field_value with
    | FieldVal.fStr s => some (validate_unit s)
    | _ => Option.none
  else if field_name = "quantity" then
    some (validate_quantity ctx field_value product_details request_type)
  else if field_name = "delivery_date" then
    match field_value with
    | FieldVal.fStr s => some (validate_date ctx s)
    | _ => Option.none
  else if field_name = "incoterm" ∨ field_name = "mode_of_payment" ∨ field_name = "packaging_pref" then
    match field_value with
    | FieldVal.fStr s => some (validate_selection field_name s)
    | _ => Option.none
  else if field_name = "phone" then
    match field_value with
    | FieldVal.fStr s => some (validate_phone ctx s)
    | _ => Option.none
  else
    some { is_valid := true, message := field_name ++ " value accepted" }

/-- First pass of the bulk tool (lines 277-299): validate every supplied
non-null field in order, collecting per-field results; `none` models an
exception escaping the loop. -/
def bulkValidate (ctx : ValCtx) (request_type : String)
    (product_details : List (String × FieldVal)) :
    List (String × FieldVal) → Option (List (String × ValidationResult))
  | [] => some []
  | (field_name, field_value) :: rest =>
    if field_value = FieldVal.fNone then
      bulkValidate ctx request_type product_details rest
    else
      match validateFieldOpt ctx request_type product_details field_name field_value with
      | Option.none => Option.none
      | some result =>
        (bulkValidate ctx request_type product_details rest).map
          (fun tl => (field_name, result) :: tl)

/-- Committed value for one field in the second pass (lines 303-310): the
unit field stores the validator's normalized value (falling back to the
raw value); every other field stores the raw extracted value. -/
def commitValue (validation_results : List (String × ValidationResult))
    (field_name : String) (field_value : FieldVal) : FieldVal :=
  if field_name = "unit" then
    match List.lookup field_name validation_results with
    | some r =>
      match r.normalized_value with
      | some nv => FieldVal.fStr nv
      | Option.none => field_value
    | Option.none => field_value
  else field_value

/-- One entry of the second (commit) pass of the bulk tool (lines
301-310): null values are skipped, everything else is committed via
`commitValue`. -/
def commitEntry (validation_results : List (String × ValidationResult))
    (p : String × FieldVal) : Option (String × FieldVal) :=
  if p.2 = FieldVal.fNone then Option.none
  else some (p.1, commitValue validation_results p.1 p.2)

/-- The expected-price guard (lines 316-319):
`all_fields_valid and extracted_fields.get("quantity") and
extracted_fields.get("price_per_unit") and
extracted_fields.get("price_per_unit") > 0`, evaluated left to right with
Python truthiness.  `none` models the TypeError raised when the comparison
`> 0` is applied to a (truthy) string value. -/
def expectedPriceGuard (all_fields_valid : Bool)
    (extracted_fields : List (String × FieldVal)) : Option Bool :=
  if ¬ all_fields_valid then some false
  else
    match List.lookup "quantity" extracted_fields with
    | Option.none => some false
    | some qv =>
      if ¬ qv.truthy then some false
      else
        match List.lookup "price_per_unit" extracted_fields with
        | Option.none => some false
        | some pv =>
          if ¬ pv.truthy then some false
          else
            match pv with
            | FieldVal.fNum x => some (decide (0 < x))
            | FieldVal.fStr _ => Option.none
            | FieldVal.fNone => some false

/-- The expected-price entry appended by lines 321-327 when the guard
passed: `calculate_expected_price` on the extracted quantity and price,
stored only on success status. -/
def priceExtra (ctx : ValCtx) (extracted_fields : List (String × FieldVal))
    (addPrice : Bool) : List (String × FieldVal) :=
  if addPrice then
    match List.lookup "quantity" extracted_fields, List.lookup "price_per_unit" extracted_fields with
    | some qv, some pv =>
      if (calculate_expected_price ctx qv pv).status = "success" then
        [("expected_price", FieldVal.fNum (calculate_expected_price ctx qv pv).calculated_value)]
      else []
    | _, _ => []
  else []

/-- The full `extract_and_validate_all_fields` tool body
(agents/request_details.py lines 270-337): validate all supplied fields;
commit all of them only when every one is valid (unit normalized);
append the auto-calculated expected price when the guard passes.  `none`
models an exception escaping the tool call. -/
def extract_and_validate_all_fields (ctx : ValCtx) (request_type : String)
    (product_details : List (String × FieldVal))
    (extracted_fields : List (String × FieldVal)) : Option (List (String × FieldVal)) :=
  match bulkValidate ctx request_type product_details extracted_fields with
  | Option.none => Option.none
  | some validation_results =>
    let all_fields_valid := validation_results.all (fun p => p.2.is_valid)
    let session_updates :=
      if all_fields_valid then
        extracted_fields.filterMap (commitEntry validation_results)
      else []
    match expectedPriceGuard all_fields_valid extracted_fields with
    | Option.none => Option.none
    | some addPrice =>
      some (session_updates ++ priceExtra ctx extracted_fields addPrice)

/-- The session updates that the handler actually applies from one bulk
tool call: an exception anywhere in the tool call is caught by
`process_request_details`' outer except, which returns empty updates. -/
def bulkToolUpdates (ctx : ValCtx) (request_type : String)
    (product_details : List (String × FieldVal))
    (extracted_fields : List (String × FieldVal)) : List (String × FieldVal) :=
  (extract_and_validate_all_fields ctx request_type product_details extracted_fields).getD []

end RequestDetails

namespace AgentManager

/-- services/agent_manager.py `expand_session_for_request` field table
(lines 165-170), an independently duplicated copy of Agent 2's table. -/
def field_requirements : List (String × List String) :=
  [("order",  ["unit", "quantity", "price_per_unit", "expected_price", "phone", "incoterm", "mode_of_payment", "packaging_pref", "delivery_date"]),
   ("sample", ["unit", "quantity", "price_per_unit", "expected_price", "phone", "incoterm", "mode_of_payment", "packaging_pref", "delivery_date"]),
   ("quote",  ["unit", "quantity", "price_per_unit", "expected_price", "phone", "incoterm", "mode_of_payment", "packaging_pref", "delivery_date"]),
   ("ppr",    ["unit", "quantity", "price_per_unit", "expected_price", "delivery_date"])]

/-- services/agent_manager.py `expand_session_for_request` (lines
157-173): the required-field list computed during session expansion from
the session's lowercased request type. -/
def expand_session_required_fields (request : String) : List String :=
  (List.lookup (pyLower request) field_requirements).getD
    ["unit", "quantity", "price_per_unit", "expected_price"]

end AgentManager

/-- Association-list erase, modelling Python `del d[k]` (and the absence
of duplicate keys in a dict). -/
def alistErase {β : Type} (k : String) (l : List (String × β)) : List (String × β) :=
  l.filter (fun p => p.1 != k)

/-- Association-list insert/replace, modelling Python `d[k] = v`. -/
def alistSet {β : Type} (k : String) (v : β) (l : List (String × β)) : List (String × β) :=
  alistErase k l ++ [(k, v)]

namespace ProductRequest

/-- A vendor inventory product; only the fields the caching logic
touches are modelled (`_id` as `pid`). -/
structure Product where
  pid : Option String := Option.none
  name_en : String := ""
deriving DecidableEq, Repr

/-- The vendor search response: the `error` flag and
`results.products`. -/
structure ApiResult where
  error : Bool := false
  products : List Product := []
deriving DecidableEq, Repr

/-- The per-session cache initialized at the top of
`fetch_inventory_query` (agents/product_request.py lines 30-34). -/
structure Cache where
  product_cache : List (String × ApiResult) := []
  product_details_cache : List (String × Product) := []
  product_list_cache : List (String × String) := []
  current_product_list : List Product := []
deriving DecidableEq, Repr

/-- One iteration of the product-caching loop (lines 88-98): products
with a truthy `_id` are stored in the id-keyed detail cache, the 1-based
position map (using the enumeration index, so id-less products leave
gaps) and the current list; id-less products are skipped. -/
def cacheStep (cc : Cache) (ip : Nat × Product) : Cache :=
  if truthyS ip.2.pid then
    { cc with
      product_details_cache := alistSet (ip.2.pid.getD "") ip.2 cc.product_details_cache
      product_list_cache := alistSet (toString (ip.1 + 1)) (ip.2.pid.getD "") cc.product_list_cache
      current_product_list := cc.current_product_list ++ [ip.2] }
  else cc

/-- The caching block run on a non-empty vendor result (lines 79-101):
store the full result under the normalized key, clear the position map
and current list, then loop over the products. -/
def cacheProducts (c : Cache) (cache_key : String) (result : ApiResult) : Cache :=
  (result.products.enum).foldl cacheStep
    { c with
      product_cache := alistSet cache_key result c.product_cache
      product_list_cache := []
      current_product_list := [] }

/-- The fetch-from-vendor path of `fetch_inventory_query` (lines 50-108).
`vendor` is the network oracle (`none` = the request raised, landing in
the except branch that returns an explicit empty-result error payload
without caching).  An empty product list is returned but not cached.
The boolean records that a vendor call was attempted. -/
def fetchFresh (c : Cache) (cache_key query : String)
    (vendor : String → Option ApiResult) : ApiResult × Cache × Bool :=
  match vendor query with
  | Option.none => ({ error := true, products := [] }, c, true)
  | some result =>
    if result.products ≠ [] then (result, cacheProducts c cache_key result, true)
    else (result, c, true)

/-- agents/product_request.py `fetch_inventory_query` (lines 25-108):
normalize the query (`query.lower().strip()`), return a cached non-empty
result without a vendor call; evict a cached-but-empty entry and
re-fetch; otherwise fetch and cache. -/
def fetch_inventory_query (c : Cache) (query : String)
    (vendor : String → Option ApiResult) : ApiResult × Cache × Bool :=
  let cache_key := pyStrip (pyLower query)
  match List.lookup cache_key c.product_cache with
  | some cached_result =>
    if cached_result.products ≠ [] then (cached_result, c, false)
    else
      fetchFresh { c with product_cache := alistErase cache_key c.product_cache }
        cache_key query vendor
  | Option.none => fetchFresh c cache_key query vendor

end ProductRequest

/-- One history entry: the user utterance and the agent reply. -/
structure HistEntry where
  user : String
  agent : String
deriving DecidableEq, Repr

/-- A saved delivery address (`_id` as `aid`); only the fields the
selection and placement logic touches are modelled. -/
structure Address where
  aid : Option String := Option.none
  addressLine : String := ""
deriving DecidableEq, Repr

/-- A platform industry (`_id` as `iid`). -/
structure Industry where
  iid : Option String := Option.none
  name_en : Option String := Option.none
deriving DecidableEq, Repr

/-- The session's `address` slot, which the code stores either as a raw
string or as a full address record (or leaves absent). -/
inductive AddrStore where
  | absent
  | str (s : String)
  | obj (a : Address)
deriving DecidableEq, Repr

/-- Python truthiness of the address slot: absent and the empty string
are falsy, a record (non-empty dict) is truthy. -/
def AddrStore.truthy : AddrStore → Bool
  | .absent => false
  | .str s => s ≠ ""
  | .obj _ => true

/-- The session document (services/agent_manager.py `create_new_session`
plus the fields the agents add).  `history = none` models a document
without a `history` key; `agent = none` models a missing `agent` key. -/
structure Session where
  agent : Option String := Option.none
  session_id : String := ""
  userAuth : Option String := Option.none
  product_id : Option String := Option.none
  product_name : Option String := Option.none
  product_details : List (String × FieldVal) := []
  request : Option String := Option.none
  address : AddrStore := AddrStore.absent
  industry_id : Option String := Option.none
  industry_name : Option String := Option.none
  cachedAddresses : List Address := []
  cachedIndustries : List Industry := []
  cachedDataFetched : Bool := false
  history : Option (List HistEntry) := Option.none
  cache : ProductRequest.Cache := {}
deriving DecidableEq, Repr

/-- The hand-off message every agent returns when the session's `agent`
field names a different agent. -/
def stockHandoffMsg : String := "I'll hand you over to the next specialist."

/-- Append one exchange to the session history
(`session_data.setdefault("history", []).append(...)`). -/
def appendHist (s : Session) (user_input agent_reply : String) : Session :=
  { s with history := some ((s.history.getD []) ++ [⟨user_input, agent_reply⟩]) }

namespace ProductRequest

/-- The outcome of Agent 1's AI turn (`process_with_ai_tools`): the reply
plus the accumulated `update_session_memory` arguments.  Supplied as an
oracle because it depends on the LLM. -/
structure A1AiResp where
  response : String
  product_id : Option String := Option.none
  product_name : Option String := Option.none
  product_details : Option (List (String × FieldVal)) := Option.none
  request : Option String := Option.none
  agentUpd : Option String := Option.none

/-- agents/product_request.py lines 177-181: apply each truthy value of
the AI's session updates to the top-level session fields. -/
def applyA1Updates (s : Session) (r : A1AiResp) : Session :=
  let s1 := match r.product_id with
    | some v => if v ≠ "" then { s with product_id := some v } else s
    | Option.none => s
  let s2 := match r.product_name with
    | some v => if v ≠ "" then { s1 with product_name := some v } else s1
    | Option.none => s1
  let s3 := match r.product_details with
    | some l => if l ≠ [] then { s2 with product_details := l } else s2
    | Option.none => s2
  let s4 := match r.request with
    | some v => if v ≠ "" then { s3 with request := some v } else s3
    | Option.none => s3
  match r.agentUpd with
  | some v => if v ≠ "" then { s4 with agent := some v } else s4
  | Option.none => s4

/-- The Agent-1 error reply (lines 191-194); the except branch returns
the session without appending history. -/
def a1ErrorMsg : String :=
  "I apologize, but I'm having trouble processing your request. Please try again."

/-- agents/product_request.py `handle_product_request` (lines 157-194).
Line 163 (`session_data.setdefault("history", [])`) runs before the
ownership guard at line 169, so a session without a history key gains an
empty history even on the idle path.  The AI turn is an oracle; `none`
models an exception, handled by the except branch. -/
def handle_product_request (ai : Session → String → Option A1AiResp)
    (user_input : String) (session_data : Session) : String × Session :=
  let s0 := { session_data with history := some (session_data.history.getD []) }
  if s0.agent ≠ some "product_request" then
    (stockHandoffMsg, s0)
  else
    match ai s0 user_input with
    | Option.none => (a1ErrorMsg, s0)
    | some r =>
      let s1 := applyA1Updates s0 r
      (r.response, appendHist s1 user_input r.response)

end ProductRequest

namespace RequestDetails

/-- The outcome of Agent 2's AI turn (`process_request_details`):
reply, field updates and the hand-off flag.  Supplied as an oracle. -/
structure A2AiResp where
  response : String
  session_updates : List (String × FieldVal) := []
  handover_ready : Bool := false

/-- The Agent-2 error reply (lines 57-64). -/
def a2ErrorMsg : String :=
  "I apologize, but I'm having trouble processing your request. Please try again."

/-- agents/request_details.py `handle_request_details` (lines 22-64):
ownership guard first (returning the session untouched), then apply each
non-null update into `product_details`, switch to Agent 3 when
handover_ready, and append history.  `none` models an exception, whose
handler appends the error reply to history. -/
def handle_request_details (ai : Session → String → Option A2AiResp)
    (user_input : String) (session_data : Session) : String × Session :=
  if session_data.agent ≠ some "request_details" then
    (stockHandoffMsg, session_data)
  else
    match ai session_data user_input with
    | Option.none => (a2ErrorMsg, appendHist session_data user_input a2ErrorMsg)
    | some r =>
      let pd := r.session_updates.foldl
        (fun acc kv => if kv.2 ≠ FieldVal.fNone then alistSet kv.1 kv.2 acc else acc)
        session_data.product_details
      let s1 := { session_data with
        product_details := pd
        agent := if r.handover_ready then some "address_purpose" else session_data.agent }
      (r.response, appendHist s1 user_input r.response)

end RequestDetails

namespace AddressPurpose

/-- Python `str.isdigit` restricted to ASCII digits (the only digits the
selection flow receives). -/
def isDigitStr (s : String) : Bool := s ≠ "" && s.data.all Char.isDigit

/-- Numeric value of a digit string (Python `int(s)` on an
`isdigit`-true string). -/
def digitsToNat (s : String) : Nat :=
  s.data.foldl (fun acc c => acc * 10 + (c.toNat - Char.toNat '0')) 0

/-- Python `needle in hay` substring test. -/
def strContains (hay needle : String) : Bool :=
  if needle = "" then true else (hay.splitOn needle).length ≥ 2

/-- Python `s.split()`: whitespace-separated words, empties dropped. -/
def pyWords (s : String) : List String :=
  ((s.data.foldr
    (fun c acc =>
      if c.isWhitespace then [] :: acc
      else match acc with
        | [] => [[c]]
        | g :: gs => (c :: g) :: gs)
    []).filter (fun g => g ≠ [])).map String.mk

/-- The `address_object` argument of the `select_address` tool: a full
record, a raw string, or missing. -/
inductive AddrArg where
  | obj (a : Address)
  | str (s : String)
  | absent
deriving DecidableEq, Repr

/-- agents/address_purpose.py lines 344-384: resolve the selected
address.  A record with a truthy `_id` is used as-is; a digit string is a
1-based index into the cached list (Python's `int(s) - 1` with the
`0 <= i < len` bound is modelled as `1 ≤ n ∧ n - 1 < len`); any other
string is substring-matched against the cached address lines; finally the
raw user utterance is scanned word-by-word for an in-range bare number.
No address is ever fabricated: failure to resolve yields `none`. -/
def selectPrimary (cached_addresses : List Address) : AddrArg → Option Address
  | AddrArg.obj a => if truthyS a.aid then some a else Option.none
  | AddrArg.str s =>
    if isDigitStr s then
      if 1 ≤ digitsToNat s ∧ digitsToNat s - 1 < cached_addresses.length then
        cached_addresses.get? (digitsToNat s - 1)
      else Option.none
    else
      cached_addresses.find? (fun addr =>
        strContains (pyLower addr.addressLine) (pyLower s))
  | AddrArg.absent => Option.none

/-- Lines 374-384: the last-resort scan of the raw user utterance for an
in-range bare number, applied only when the primary phase resolved
nothing and the cached list is non-empty. -/
def selectAddressResolve (address_object : AddrArg)
    (cached_addresses : List Address) (user_input : String) : Option Address :=
  match selectPrimary cached_addresses address_object with
  | some a => some a
  | Option.none =>
    if cached_addresses ≠ [] then
      (pyWords (pyLower user_input)).findSome? (fun word =>
        if isDigitStr word then
          if 1 ≤ digitsToNat word ∧ digitsToNat word - 1 < cached_addresses.length then
            cached_addresses.get? (digitsToNat word - 1)
          else Option.none
        else Option.none)
    else Option.none

/-- The session updates accumulated by Agent 3's tool loop
(`session_updates` in `process_address_purpose`). -/
structure A3Updates where
  industry_id : Option String := Option.none
  industry_name : Option String := Option.none
  address : Option Address := Option.none
deriving DecidableEq, Repr

/-- The tool calls Agent 3 dispatches on (lines 296-458). -/
inductive A3Tool where
  | get_cached_industries
  | get_cached_addresses
  | select_industry (industry_id : Option String) (industry_name : Option String)
  | select_address (address_object : AddrArg)
  | show_final_confirmation (confirmation_ready : Bool)
  | place_order (user_confirmed : Bool)
deriving DecidableEq, Repr

/-- The order-placement collaborator's verdict as consumed by the
`place_order_request` tool branch. -/
structure OrderOutcome where
  status : String
  message : String := ""
deriving DecidableEq, Repr

/-- One tool call of `process_address_purpose` (lines 284-458), reduced
to its effect on the accumulated session updates plus the status string
of the tool result returned to the model.  The `place_order_request`
branch calls the collaborator (outcome supplied as `order_result`) and
reports success or failure verbatim, but never writes any session update
or terminal marker. -/
def processA3ToolCall (session_data : Session) (user_input : String)
    (order_result : OrderOutcome) (u : A3Updates) : A3Tool → A3Updates × String
  | A3Tool.get_cached_industries =>
    (u, if session_data.cachedIndustries = [] then "error" else "success")
  | A3Tool.get_cached_addresses =>
    (u, if session_data.cachedAddresses = [] then "error" else "success")
  | A3Tool.select_industry industry_id industry_name =>
    if session_data.cachedIndustries.any (fun ind => ind.iid == industry_id) then
      ({ u with industry_id := industry_id, industry_name := industry_name }, "success")
    else (u, "error")
  | A3Tool.select_address address_object =>
    match selectAddressResolve address_object session_data.cachedAddresses user_input with
    | some a => ({ u with address := some a }, "success")
    | Option.none => (u, "error")
  | A3Tool.show_final_confirmation _ =>
    if (truthyS session_data.industry_id || truthyS u.industry_id)
        && (session_data.address.truthy || u.address.isSome) then
      (u, "ready")
    else (u, "not_ready")
  | A3Tool.place_order user_confirmed =>
    if user_confirmed then
      (u, if order_result.status = "success" then "success" else "error")
    else (u, "error")

/-- agents/address_purpose.py lines 85-89: apply each non-null
accumulated update to the session (an address record is stored in the
`address` slot). -/
def applyA3Updates (s : Session) (u : A3Updates) : Session :=
  let s1 := match u.industry_id with
    | some v => { s with industry_id := some v }
    | Option.none => s
  let s2 := match u.industry_name with
    | some v => { s1 with industry_name := some v }
    | Option.none => s1
  match u.address with
  | some a => { s2 with address := AddrStore.obj a }
  | Option.none => s2

/-- The Agent-3 fixed replies (lines 74 and 103). -/
def a3NoDataMsg : String :=
  "I apologize, but I'm unable to fetch the required data (industries and addresses) at the moment. Please try again later or contact support."

/-- The Agent-3 error reply. -/
def a3ErrorMsg : String :=
  "I apologize, but I'm having trouble processing your address information. Please try again."

/-- agents/address_purpose.py `handle_address_purpose` (lines 51-108):
ownership guard first (session untouched); one-time fetch of addresses
and industries; the fixed apology when both lists are empty; otherwise
the AI turn (an oracle yielding accumulated updates, `none` = exception)
whose updates are applied before history is appended. -/
def handle_address_purpose (fetchAddrs : Session → List Address)
    (fetchInds : Session → List Industry)
    (ai : Session → String → Option (String × A3Updates))
    (user_input : String) (session_data : Session) : String × Session :=
  if session_data.agent ≠ some "address_purpose" then
    (stockHandoffMsg, session_data)
  else
    let s0 :=
      if ¬ session_data.cachedDataFetched then
        { session_data with
          cachedAddresses := fetchAddrs session_data
          cachedIndustries := fetchInds session_data
          cachedDataFetched := true }
      else session_data
    if s0.cachedIndustries = [] ∧ s0.cachedAddresses = [] then
      (a3NoDataMsg, appendHist s0 user_input a3NoDataMsg)
    else
      match ai s0 user_input with
      | Option.none => (a3ErrorMsg, appendHist s0 user_input a3ErrorMsg)
      | some (reply, u) => (reply, appendHist (applyA3Updates s0 u) user_input reply)

end AddressPurpose

namespace OrderPlacement

/-- How the request body is encoded: the repository's single order path
always posts a multipart form. -/
inductive PayloadKind where
  | multipartForm
  | jsonBody
deriving DecidableEq, Repr

/-- services/order_placement.py line 41: a well-formed MongoDB id is a
24-character lowercase-hex string. -/
def isMongoId (s : String) : Bool :=
  s.length = 24 && (pyLower s).data.all (fun c => ("0123456789abcdef".data).contains c)

/-- Python `str(x)` on an optional string (`str(None) = "None"`). -/
def pyStrOpt (o : Option String) : String :=
  match o with
  | some s => s
  | Option.none => "None"

/-- services/order_placement.py lines 38-51: resolve the industry id —
use it when it is a well-formed MongoDB id, otherwise look it up in the
cached industry list by exact name or stringified id match. -/
def resolveIndustryId (industry_id industry_name : Option String)
    (cached_industries : List Industry) : Option String :=
  match industry_id with
  | some iid =>
    if iid ≠ "" then
      if isMongoId iid then some iid
      else
        match cached_industries.find? (fun ind =>
            ind.name_en == industry_name || pyStrOpt ind.iid = iid) with
        | some ind => ind.iid
        | Option.none => Option.none
    else Option.none
  | Option.none => Option.none

/-- Python `str.capitalize`: first character uppercased, the rest
lowercased. -/
def pyCapitalize (s : String) : String :=
  match s.data with
  | [] => ""
  | c :: rest => String.mk (Char.toUpper c :: rest.map Char.toLower)

/-- The single order endpoint (services/order_placement.py line 135). -/
def place_order_url : String := "https://chemfalcon.com:2053/order/placeOrder"

/-- Truthiness of one product-details entry, as used by the optional
form-field guards (`if product_details.get(...)`). -/
def pdTruthy (s : Session) (k : String) : Bool :=
  match List.lookup k s.product_details with
  | some v => v.truthy
  | Option.none => false

/-- The HTTP request `place_order_request` builds: the endpoint, the
payload encoding, the form field names in order (optional fields present
only when truthy), the capitalized type tag and the sample flag. -/
structure OrderHttpCall where
  url : String
  payload : PayloadKind
  form_field_names : List String
  type_field : String
  isSampleOrder : Bool
deriving DecidableEq, Repr

/-- services/order_placement.py `place_order_request`, request-building
half (lines 8-152): a missing auth token short-circuits to an AUTH_ERROR
without any HTTP call (`none`); otherwise a single multipart form is
posted to the placeOrder endpoint for every request type — PPR included —
with the capitalized type tag, the sample flag for sample requests, and
each optional field only when its value is truthy. -/
def buildPlaceOrderCall (s : Session) : Option OrderHttpCall :=
  if truthyS s.userAuth then
    let resolved := resolveIndustryId s.industry_id s.industry_name s.cachedIndustries
    some
      { url := place_order_url
        payload := PayloadKind.multipartForm
        form_field_names :=
          ["address", "product", "quantity", "expectedAmount", "quantityType", "type"]
          ++ (if pyLower ((s.request).getD "") = "sample" then ["isSampleOrder"] else [])
          ++ (if truthyS resolved then ["industry"] else [])
          ++ (if pdTruthy s "incoterm" then ["incoterm"] else [])
          ++ (if pdTruthy s "mode_of_payment" then ["modeOfPayment"] else [])
          ++ (if pdTruthy s "packaging_pref" then ["packingType"] else [])
          ++ (if pdTruthy s "delivery_date" then ["expectedPurchaseDate"] else [])
          ++ (if pdTruthy s "phone" then ["shippingContactNumber"] else [])
        type_field := pyCapitalize ((s.request).getD "")
        isSampleOrder := pyLower ((s.request).getD "") = "sample" }
  else Option.none

/-- The response body as seen by the classification logic: JSON that
failed to parse, or a parsed body with its `error` flag (absent flag
modelled as `none`). -/
inductive OrderBody where
  | unparsable
  | parsed (error_flag : Option Bool)
deriving DecidableEq, Repr

/-- The verdict `place_order_request` returns. -/
structure PlaceOrderResult where
  status : String
  error_type : Option String := Option.none
deriving DecidableEq, Repr

/-- services/order_placement.py lines 156-230, response-classification
half: 200/201 succeed only with a parseable body carrying `error: false`
(unparseable → PARSING_ERROR, other bodies → API_ERROR); 206 succeeds
with `error: false` or — via the bare except at line 206 — with an
unparseable body; all other statuses map to typed errors. -/
def classifyPlaceOrderResponse (http_status : Nat) (body : OrderBody) : PlaceOrderResult :=
  if http_status = 200 ∨ http_status = 201 then
    match body with
    | OrderBody.parsed ef =>
      if ef = some false then { status := "success" }
      else { status := "error", error_type := some "API_ERROR" }
    | OrderBody.unparsable => { status := "error", error_type := some "PARSING_ERROR" }
  else if http_status = 206 then
    match body with
    | OrderBody.parsed ef =>
      if ef = some false then { status := "success" }
      else { status := "error", error_type := some "PARTIAL_ERROR" }
    | OrderBody.unparsable => { status := "success" }
  else
    { status := "error"
      error_type := some (
        if http_status = 400 then "BAD_REQUEST"
        else if http_status = 401 then "UNAUTHORIZED"
        else if http_status = 403 then "FORBIDDEN"
        else if http_status = 404 then "NOT_FOUND"
        else if http_status = 500 then "SERVER_ERROR"
        else "UNKNOWN_ERROR") }

/-- A concrete session ready for placement with request type PPR. -/
def pprSession : Session :=
  { agent := some "address_purpose"
    userAuth := some "token123"
    product_id := some "68f9da20c7fe40d80722c436"
    request := some "ppr"
    address := AddrStore.obj { aid := some "a1", addressLine := "1 Test Street" }
    industry_id := some "aaaaaaaaaaaaaaaaaaaaaaaa"
    product_details :=
      [("quantity", FieldVal.fNum 5), ("unit", FieldVal.fStr "KG"),
       ("expected_price", FieldVal.fNum 50), ("delivery_date", FieldVal.fStr "2026-01-01")] }

/-- The same session with request type Order. -/
def orderSession : Session := { pprSession with request := some "order" }

end OrderPlacement

namespace AddressPurpose

/-- A session exactly as it stands after a successful order-placement
turn: the placement tool branch writes no session updates and no
terminal marker, so this equals the pre-placement session (address and
industry selected, data fetched). -/
def postPlacementSession : Session :=
  { agent := some "address_purpose"
    userAuth := some "token123"
    product_id := some "p1"
    request := some "order"
    address := AddrStore.obj { aid := some "addr1", addressLine := "1 First Street" }
    industry_id := some "ind1"
    industry_name := some "Chemicals"
    cachedAddresses := [{ aid := some "addr1", addressLine := "1 First Street" },
                        { aid := some "addr2", addressLine := "2 Second Avenue" }]
    cachedIndustries := [{ iid := some "ind1", name_en := some "Chemicals" }]
    cachedDataFetched := true
    history := some [] }

end AddressPurpose

section ClaimTheorems

open RequestDetails

/-- Claim C8: for every input string, unit validation succeeds iff the
trimmed uppercased input is one of KG, GAL, LB, L, and on success the
normalized value is that uppercase form. -/
theorem claim_C8_unit_validation (s : String) :
    ((validate_unit s).is_valid = true ↔ pyUpper (pyStrip s) ∈ ALLOWED_UNITS)
    ∧ ((validate_unit s).is_valid = true →
        (validate_unit s).normalized_value = some (pyUpper (pyStrip s))) := by
  unfold validate_unit
  split
  next h =>
    exact ⟨⟨fun _ => List.mem_of_elem_eq_true h, fun _ => rfl⟩, fun _ => rfl⟩
  next h =>
    refine ⟨⟨fun hc => absurd hc (by simp), fun hm => ?_⟩, fun hc => absurd hc (by simp)⟩
    exact absurd (List.elem_eq_true_of_mem hm) h

/-- Witness for C8 at a concrete input: " kg " validates and normalizes
to "KG". -/
theorem claim_C8_unit_validation_witness :
    (validate_unit " kg ").normalized_value = some (pyUpper (pyStrip " kg ")) :=
  (claim_C8_unit_validation " kg ").2 (by decide)

/-- Reduction of `validate_quantity` on a product-details dictionary
carrying numeric min and max bounds. -/
theorem validate_quantity_on_bounds (ctx : ValCtx) (v : FieldVal) (m M : ℚ) (rt : String)
    (q : ℚ) (hq : pyFloat ctx v = some q) :
    validate_quantity ctx v [("minQuantity", FieldVal.fNum m), ("maxQuantity", FieldVal.fNum M)] rt
      = if pyLower rt = "sample" then
          if quantityExceeds q (some M) then
            { is_valid := false, message := "Sample quantity exceeds available stock" }
          else
            { is_valid := true, message := "Sample quantity is valid" }
        else
          if q < m then
            { is_valid := false, message := "Quantity must be at least the minimum order quantity" }
          else if quantityExceeds q (some M) then
            { is_valid := false, message := "Quantity exceeds available stock" }
          else
            { is_valid := true, message := "Quantity is valid" } := by
  unfold validate_quantity
  rw [hq]
  rfl

/-- `quantityExceeds` against a finite maximum is the strict comparison. -/
theorem quantityExceeds_some (q M : ℚ) : quantityExceeds q (some M) = decide (M < q) := rfl

/-- Claim C4: quantity validation fails when the input does not
float-parse; for request type "sample" (case-insensitively) it succeeds
exactly when the quantity does not exceed the product maximum (no lower
bound); for any other request type it succeeds exactly when the quantity
is between the product minimum and maximum. -/
theorem claim_C4_quantity_validation (ctx : ValCtx) (v : FieldVal) (m M : ℚ) (rt : String) :
    (pyFloat ctx v = Option.none →
      (validate_quantity ctx v [("minQuantity", FieldVal.fNum m), ("maxQuantity", FieldVal.fNum M)] rt).is_valid = false)
    ∧ (∀ q : ℚ, pyFloat ctx v = some q → pyLower rt = "sample" →
        ((validate_quantity ctx v [("minQuantity", FieldVal.fNum m), ("maxQuantity", FieldVal.fNum M)] rt).is_valid = true
          ↔ q ≤ M))
    ∧ (∀ q : ℚ, pyFloat ctx v = some q → pyLower rt ≠ "sample" →
        ((validate_quantity ctx v [("minQuantity", FieldVal.fNum m), ("maxQuantity", FieldVal.fNum M)] rt).is_valid = true
          ↔ m ≤ q ∧ q ≤ M)) := by
  refine ⟨?_, ?_, ?_⟩
  · intro hnone
    unfold validate_quantity
    rw [hnone]
  · intro q hq hs
    rw [validate_quantity_on_bounds ctx v m M rt q hq, if_pos hs]
    by_cases hE : quantityExceeds q (some M) = true
    · rw [if_pos hE]
      have hle : M < q := by simpa [quantityExceeds] using hE
      simp only [Bool.false_eq_true, false_iff, not_le]
      exact hle
    · rw [if_neg hE]
      have hle : ¬ M < q := by simpa [quantityExceeds] using hE
      simp only [true_iff]
      exact not_lt.mp hle
  · intro q hq hs
    rw [validate_quantity_on_bounds ctx v m M rt q hq, if_neg hs]
    by_cases hminlt : q < m
    · rw [if_pos hminlt]
      simp only [Bool.false_eq_true, false_iff]
      intro hcon
      exact absurd hminlt (not_lt.mpr hcon.1)
    · rw [if_neg hminlt]
      by_cases hE : quantityExceeds q (some M) = true
      · rw [if_pos hE]
        have hmaxlt : M < q := by simpa [quantityExceeds] using hE
        simp only [Bool.false_eq_true, false_iff]
        intro hcon
        exact absurd hmaxlt (not_lt.mpr hcon.2)
      · rw [if_neg hE]
        have hmaxlt : ¬ M < q := by simpa [quantityExceeds] using hE
        simp only [true_iff]
        exact ⟨not_lt.mp hminlt, not_lt.mp hmaxlt⟩

/-- Witness for C4 at concrete inputs: for a sample request, quantity
0.01 validates against a maximum of 1 (no lower bound applies). -/
theorem claim_C4_quantity_validation_witness :
    (validate_quantity testCtx (FieldVal.fNum (1/100))
      [("minQuantity", FieldVal.fNum 1), ("maxQuantity", FieldVal.fNum 1)] "sample").is_valid = true :=
  ((claim_C4_quantity_validation testCtx (FieldVal.fNum (1/100)) 1 1 "sample").2.1
    (1/100) rfl rfl).mpr (by norm_num)

/-- Claim C6: `calculate_expected_price` returns the exact product of two
numeric arguments with a success status, and any input whose arguments do
not float-parse yields a zero value with an error status (the function is
total, modelling that it never raises). -/
theorem claim_C6_expected_price (ctx : ValCtx) :
    (∀ a b : ℚ, calculate_expected_price ctx (FieldVal.fNum a) (FieldVal.fNum b)
        = { calculated_value := a * b, status := "success" })
    ∧ (∀ q p : FieldVal, (pyFloat ctx q = Option.none ∨ pyFloat ctx p = Option.none) →
        calculate_expected_price ctx q p = { calculated_value := 0, status := "error" }) := by
  constructor
  · intro a b; rfl
  · intro q p h
    unfold calculate_expected_price
    rcases h with h | h
    · rw [h]
    · rw [h]
      cases pyFloat ctx q <;> rfl

/-- Witness for C6 at concrete inputs: 10 × 25 = 250 with success, and a
non-numeric string argument yields 0 with an error status. -/
theorem claim_C6_expected_price_witness :
    calculate_expected_price testCtx (FieldVal.fNum 10) (FieldVal.fNum 25)
      = { calculated_value := 250, status := "success" }
    ∧ calculate_expected_price testCtx (FieldVal.fStr "abc") (FieldVal.fNum 25)
      = { calculated_value := 0, status := "error" } :=
  ⟨by rw [(claim_C6_expected_price testCtx).1 10 25]; norm_num [PriceResult.mk.injEq],
   (claim_C6_expected_price testCtx).2 (FieldVal.fStr "abc") (FieldVal.fNum 25)
     (Or.inl rfl)⟩

/-- Every non-null supplied field whose validator returns a result has
its (name, result) pair in the first-pass output. -/
theorem bulkValidate_mem_of (ctx : ValCtx) (rt : String) (pd : List (String × FieldVal)) :
    ∀ (fields : List (String × FieldVal)) (results : List (String × ValidationResult)),
      bulkValidate ctx rt pd fields = some results →
      ∀ n v r, (n, v) ∈ fields → v ≠ FieldVal.fNone →
        validateFieldOpt ctx rt pd n v = some r → (n, r) ∈ results := by
  intro fields
  induction fields with
  | nil =>
    intro results h n v r hmem
    simp at hmem
  | cons head rest ih =>
    obtain ⟨n0, v0⟩ := head
    intro results h n v r hmem hv hval
    by_cases h0 : v0 = FieldVal.fNone
    · rw [bulkValidate, if_pos h0] at h
      rcases List.mem_cons.mp hmem with heq | hmemtail
      · have hveq : v = v0 := congrArg Prod.snd heq
        exact absurd (hveq.trans h0) hv
      · exact ih results h n v r hmemtail hv hval
    · rw [bulkValidate, if_neg h0] at h
      cases hv0 : validateFieldOpt ctx rt pd n0 v0 with
      | none => rw [hv0] at h; cases h
      | some r0 =>
        rw [hv0] at h
        cases hmap : bulkValidate ctx rt pd rest with
        | none => rw [hmap] at h; cases h
        | some tl =>
          rw [hmap] at h
          simp only [Option.map_some'] at h
          obtain rfl := Option.some.inj h
          rcases List.mem_cons.mp hmem with heq | hmemtail
          · have hneq : n = n0 := congrArg Prod.fst heq
            have hveq : v = v0 := congrArg Prod.snd heq
            subst hneq; subst hveq
            rw [hval] at hv0
            obtain rfl := Option.some.inj hv0
            exact List.mem_cons_self _ _
          · exact List.mem_cons_of_mem _ (ih tl hmap n v r hmemtail hv hval)

/-- If every non-null supplied field validates without an exception, the
first pass completes. -/
theorem bulkValidate_isSome_of (ctx : ValCtx) (rt : String) (pd : List (String × FieldVal)) :
    ∀ (fields : List (String × FieldVal)),
      (∀ nv ∈ fields, nv.2 ≠ FieldVal.fNone →
        (validateFieldOpt ctx rt pd nv.1 nv.2).isSome = true) →
      ∃ results, bulkValidate ctx rt pd fields = some results := by
  intro fields
  induction fields with
  | nil => intro _; exact ⟨[], rfl⟩
  | cons head rest ih =>
    obtain ⟨n0, v0⟩ := head
    intro h
    by_cases h0 : v0 = FieldVal.fNone
    · obtain ⟨results, hres⟩ := ih (fun nv hmem => h nv (List.mem_cons_of_mem _ hmem))
      exact ⟨results, by rw [bulkValidate, if_pos h0]; exact hres⟩
    · have hsome := h (n0, v0) (List.mem_cons_self _ _) h0
      obtain ⟨r0, hr0⟩ := Option.isSome_iff_exists.mp hsome
      obtain ⟨tl, htl⟩ := ih (fun nv hmem => h nv (List.mem_cons_of_mem _ hmem))
      refine ⟨(n0, r0) :: tl, ?_⟩
      rw [bulkValidate, if_neg h0, hr0, htl]
      rfl

/-- Every entry of the first-pass output comes from a non-null supplied
field. -/
theorem bulkValidate_sources (ctx : ValCtx) (rt : String) (pd : List (String × FieldVal)) :
    ∀ (fields : List (String × FieldVal)) (results : List (String × ValidationResult)),
      bulkValidate ctx rt pd fields = some results →
      ∀ p ∈ results, ∃ v, (p.1, v) ∈ fields ∧ v ≠ FieldVal.fNone ∧
        validateFieldOpt ctx rt pd p.1 v = some p.2 := by
  intro fields
  induction fields with
  | nil =>
    intro results h p hp
    rw [bulkValidate] at h
    obtain rfl := Option.some.inj h
    simp at hp
  | cons head rest ih =>
    obtain ⟨n0, v0⟩ := head
    intro results h p hp
    by_cases h0 : v0 = FieldVal.fNone
    · rw [bulkValidate, if_pos h0] at h
      obtain ⟨v, hmem, hv, hval⟩ := ih results h p hp
      exact ⟨v, List.mem_cons_of_mem _ hmem, hv, hval⟩
    · rw [bulkValidate, if_neg h0] at h
      cases hv0 : validateFieldOpt ctx rt pd n0 v0 with
      | none => rw [hv0] at h; cases h
      | some r0 =>
        rw [hv0] at h
        cases hmap : bulkValidate ctx rt pd rest with
        | none => rw [hmap] at h; cases h
        | some tl =>
          rw [hmap] at h
          simp only [Option.map_some'] at h
          obtain rfl := Option.some.inj h
          rcases List.mem_cons.mp hp with heq | hptail
          · subst heq
            exact ⟨v0, List.mem_cons_self _ _, h0, hv0⟩
          · obtain ⟨v, hmem, hv, hval⟩ := ih tl hmap p hptail
            exact ⟨v, List.mem_cons_of_mem _ hmem, hv, hval⟩

/-- With no duplicate field names, looking a field up in the first-pass
output returns exactly its validator result. -/
theorem bulkValidate_lookup (ctx : ValCtx) (rt : String) (pd : List (String × FieldVal)) :
    ∀ (fields : List (String × FieldVal)) (results : List (String × ValidationResult)),
      (fields.map Prod.fst).Nodup →
      bulkValidate ctx rt pd fields = some results →
      ∀ n v r, (n, v) ∈ fields → v ≠ FieldVal.fNone →
        validateFieldOpt ctx rt pd n v = some r → List.lookup n results = some r := by
  intro fields
  induction fields with
  | nil =>
    intro results _ h n v r hmem
    simp at hmem
  | cons head rest ih =>
    obtain ⟨n0, v0⟩ := head
    intro results hN h n v r hmem hv hval
    have hN0 : n0 ∉ rest.map Prod.fst := (List.nodup_cons.mp hN).1
    have hNr : (rest.map Prod.fst).Nodup := (List.nodup_cons.mp hN).2
    by_cases h0 : v0 = FieldVal.fNone
    · rw [bulkValidate, if_pos h0] at h
      rcases List.mem_cons.mp hmem with heq | hmemtail
      · have hveq : v = v0 := congrArg Prod.snd heq
        exact absurd (hveq.trans h0) hv
      · exact ih results hNr h n v r hmemtail hv hval
    · rw [bulkValidate, if_neg h0] at h
      cases hv0 : validateFieldOpt ctx rt pd n0 v0 with
      | none => rw [hv0] at h; cases h
      | some r0 =>
        rw [hv0] at h
        cases hmap : bulkValidate ctx rt pd rest with
        | none => rw [hmap] at h; cases h
        | some tl =>
          rw [hmap] at h
          simp only [Option.map_some'] at h
          obtain rfl := Option.some.inj h
          rcases List.mem_cons.mp hmem with heq | hmemtail
          · have hneq : n = n0 := congrArg Prod.fst heq
            have hveq : v = v0 := congrArg Prod.snd heq
            subst hneq; subst hveq
            rw [hval] at hv0
            obtain rfl := Option.some.inj hv0
            simp [List.lookup]
          · have hne : n ≠ n0 := by
              intro hcon
              subst hcon
              exact hN0 (List.mem_map.mpr ⟨(n, v), hmemtail, rfl⟩)
            have hbeq : (n == n0) = false := beq_eq_false_iff_ne.mpr hne
            simp only [List.lookup, hbeq]
            exact ih tl hNr hmap n v r hmemtail hv hval

/-- A valid unit result carries the canonical uppercase normalization. -/
theorem validate_unit_valid_normalized (s : String)
    (h : (validate_unit s).is_valid = true) :
    (validate_unit s).normalized_value = some (pyUpper (pyStrip s)) := by
  revert h
  unfold validate_unit
  split
  · intro _; rfl
  · intro h; cases h

/-- The expected-price guard never raises when the batch failed
validation: the leading short-circuit resolves it to false. -/
theorem expectedPriceGuard_false (fields : List (String × FieldVal)) :
    expectedPriceGuard false fields = some false := rfl

/-- Claim C1 counterexample: in the batch
quantity = 3 (valid for min 1 / max 100, request "order") and
price_per_unit = "5" (accepted as-is since price_per_unit has no
validator), every supplied field passes validation, yet the bulk tool
commits nothing: the expected-price guard applies `> 0` to the string
value, raising a TypeError that the handler's outer except converts into
empty session updates.  This contradicts the claim that a fully valid
batch is always committed. -/
theorem claim_C1_counterexample :
    ((bulkValidate testCtx "order"
        [("minQuantity", FieldVal.fNum 1), ("maxQuantity", FieldVal.fNum 100)]
        [("quantity", FieldVal.fNum 3), ("price_per_unit", FieldVal.fStr "5")]).isSome = true)
    ∧ (((bulkValidate testCtx "order"
        [("minQuantity", FieldVal.fNum 1), ("maxQuantity", FieldVal.fNum 100)]
        [("quantity", FieldVal.fNum 3), ("price_per_unit", FieldVal.fStr "5")]).getD []).all
          (fun p => p.2.is_valid) = true)
    ∧ bulkToolUpdates testCtx "order"
        [("minQuantity", FieldVal.fNum 1), ("maxQuantity", FieldVal.fNum 100)]
        [("quantity", FieldVal.fNum 3), ("price_per_unit", FieldVal.fStr "5")] = [] := by
  refine ⟨by decide, by decide, by decide⟩

/-- Claim C1 (amended): the bulk tool is all-or-nothing — if any supplied
non-null field fails its validator, no field is committed; and if every
supplied field passes, then all of them are committed (unit normalized to
uppercase), provided the expected-price guard does not raise (which it
does exactly when a truthy quantity is supplied alongside a truthy
string-valued price_per_unit). -/
theorem claim_C1_bulk_all_or_nothing (ctx : ValCtx) (rt : String)
    (pd fields : List (String × FieldVal))
    (hN : (fields.map Prod.fst).Nodup) :
    ((∃ nv ∈ fields, nv.2 ≠ FieldVal.fNone ∧
        (validateFieldOpt ctx rt pd nv.1 nv.2).map (fun r => r.is_valid) = some false) →
      bulkToolUpdates ctx rt pd fields = [])
    ∧ ((∀ nv ∈ fields, nv.2 ≠ FieldVal.fNone →
          (validateFieldOpt ctx rt pd nv.1 nv.2).map (fun r => r.is_valid) = some true) →
        expectedPriceGuard true fields ≠ Option.none →
        ∀ nv ∈ fields, nv.2 ≠ FieldVal.fNone →
          (nv.1 ≠ "unit" → nv ∈ bulkToolUpdates ctx rt pd fields)
          ∧ (nv.1 = "unit" → ∃ s, nv.2 = FieldVal.fStr s ∧
              ("unit", FieldVal.fStr (pyUpper (pyStrip s))) ∈ bulkToolUpdates ctx rt pd fields)) := by
  constructor
  · rintro ⟨⟨n1, v1⟩, hmem, hv, hinv⟩
    obtain ⟨r, hr, hrval⟩ := Option.map_eq_some'.mp hinv
    cases hres : bulkValidate ctx rt pd fields with
    | none =>
      unfold bulkToolUpdates extract_and_validate_all_fields
      rw [hres]
      rfl
    | some results =>
      have hmemr : (n1, r) ∈ results :=
        bulkValidate_mem_of ctx rt pd fields results hres n1 v1 r hmem hv hr
      have hall : results.all (fun p => p.2.is_valid) = false := by
        rcases Bool.eq_false_or_eq_true (results.all (fun p => p.2.is_valid)) with hta | hfa
        · have := List.all_eq_true.mp hta (n1, r) hmemr
          rw [this] at hrval
          cases hrval
        · exact hfa
      unfold bulkToolUpdates extract_and_validate_all_fields
      rw [hres]
      simp only [hall, Bool.false_eq_true, if_false, expectedPriceGuard_false]
      rfl
  · intro hvalid hguard nv hmem hv
    obtain ⟨n1, v1⟩ := nv
    have hsome : ∀ p ∈ fields, p.2 ≠ FieldVal.fNone →
        (validateFieldOpt ctx rt pd p.1 p.2).isSome = true := by
      intro p hp hpv
      obtain ⟨r, hr, _⟩ := Option.map_eq_some'.mp (hvalid p hp hpv)
      rw [hr]; rfl
    obtain ⟨results, hres⟩ := bulkValidate_isSome_of ctx rt pd fields hsome
    have hall : results.all (fun p => p.2.is_valid) = true := by
      refine List.all_eq_true.mpr (fun p hp => ?_)
      obtain ⟨w, hwmem, hwv, hwval⟩ := bulkValidate_sources ctx rt pd fields results hres p hp
      obtain ⟨r, hr, hrt⟩ := Option.map_eq_some'.mp (hvalid (p.1, w) hwmem hwv)
      rw [hwval] at hr
      obtain rfl := Option.some.inj hr
      exact hrt
    obtain ⟨b, hb⟩ := Option.ne_none_iff_exists'.mp hguard
    have hupd : bulkToolUpdates ctx rt pd fields
        = fields.filterMap (commitEntry results) ++ priceExtra ctx fields b := by
      unfold bulkToolUpdates extract_and_validate_all_fields
      rw [hres]
      simp only [hall, if_true, hb]
      rfl
    constructor
    · intro hnunit
      rw [hupd]
      refine List.mem_append_left _ (List.mem_filterMap.mpr ⟨(n1, v1), hmem, ?_⟩)
      unfold commitEntry commitValue
      rw [if_neg hv]
      simp only
      rw [if_neg hnunit]
    · intro hunit
      simp only at hunit hv
      subst hunit
      obtain ⟨r, hr, hrt⟩ := Option.map_eq_some'.mp (hvalid ("unit", v1) hmem hv)
      simp only at hr
      have hstr : ∃ s, v1 = FieldVal.fStr s := by
        revert hr
        unfold validateFieldOpt
        rw [if_pos rfl]
        cases v1 with
        | fStr s => intro _; exact ⟨s, rfl⟩
        | fNum q => intro hcon; cases hcon
        | fNone => intro hcon; cases hcon
      obtain ⟨s, hs⟩ := hstr
      subst hs
      refine ⟨s, rfl, ?_⟩
      have hrval : validateFieldOpt ctx rt pd "unit" (FieldVal.fStr s) = some (validate_unit s) := by
        unfold validateFieldOpt
        rw [if_pos rfl]
      have hlook : List.lookup "unit" results = some (validate_unit s) :=
        bulkValidate_lookup ctx rt pd fields results hN hres "unit" (FieldVal.fStr s)
          (validate_unit s) hmem hv hrval
      have hvalidunit : (validate_unit s).is_valid = true := by
        rw [hrval] at hr
        obtain rfl := Option.some.inj hr
        exact hrt
      rw [hupd]
      refine List.mem_append_left _ (List.mem_filterMap.mpr ⟨("unit", FieldVal.fStr s), hmem, ?_⟩)
      unfold commitEntry commitValue
      rw [if_neg hv]
      simp only
      rw [if_pos trivial, hlook]
      simp only [validate_unit_valid_normalized s hvalidunit]

/-- Witness for the amended C1 theorem: a batch with one invalid field
(unit "stone") commits nothing, and a fully valid numeric batch commits
the unit field normalized to "KG". -/
theorem claim_C1_bulk_all_or_nothing_witness :
    bulkToolUpdates testCtx "order"
        [("minQuantity", FieldVal.fNum 1), ("maxQuantity", FieldVal.fNum 100)]
        [("quantity", FieldVal.fNum 3), ("unit", FieldVal.fStr "stone")] = []
    ∧ ("unit", FieldVal.fStr (pyUpper (pyStrip " kg ")))
        ∈ bulkToolUpdates testCtx "order"
            [("minQuantity", FieldVal.fNum 1), ("maxQuantity", FieldVal.fNum 100)]
            [("quantity", FieldVal.fNum 3), ("price_per_unit", FieldVal.fNum 5), ("unit", FieldVal.fStr " kg ")] := by
  constructor
  · exact (claim_C1_bulk_all_or_nothing testCtx "order"
      [("minQuantity", FieldVal.fNum 1), ("maxQuantity", FieldVal.fNum 100)]
      [("quantity", FieldVal.fNum 3), ("unit", FieldVal.fStr "stone")] (by decide)).1
      ⟨("unit", FieldVal.fStr "stone"), by decide, by decide, by decide⟩
  · have h := ((claim_C1_bulk_all_or_nothing testCtx "order"
      [("minQuantity", FieldVal.fNum 1), ("maxQuantity", FieldVal.fNum 100)]
      [("quantity", FieldVal.fNum 3), ("price_per_unit", FieldVal.fNum 5), ("unit", FieldVal.fStr " kg ")]
      (by decide)).2 (by decide) (by decide)
      ("unit", FieldVal.fStr " kg ") (by decide) (by decide)).2 rfl
    obtain ⟨s, hs, hmem⟩ := h
    have hseq : s = " kg " := by
      have := congrArg (fun w => match w with | FieldVal.fStr t => t | _ => "") hs
      exact this.symm
    rwa [hseq] at hmem

/-- Claim C10: the manager's session-expansion required-field table agrees
with Agent 2's `get_required_fields` for every request-type string,
including unrecognized ones (both fall back to the same base list). -/
theorem claim_C10_required_field_tables_agree (rt : String) :
    AgentManager.expand_session_required_fields rt = RequestDetails.get_required_fields rt := rfl

/-- Looking up a key in the association list it was erased from yields
nothing. -/
theorem lookup_alistErase_self {β : Type} (k : String) (l : List (String × β)) :
    List.lookup k (alistErase k l) = Option.none := by
  induction l with
  | nil => rfl
  | cons hd tl ih =>
    obtain ⟨k0, v0⟩ := hd
    unfold alistErase at ih ⊢
    rw [List.filter_cons]
    by_cases h : k0 = k
    · rw [if_neg (by simp [h])]
      exact ih
    · rw [if_pos (by simp [h])]
      simp only [List.lookup, beq_eq_false_iff_ne.mpr (Ne.symm h)]
      exact ih

/-- Appending the target entry behind keys different from it is found by
lookup. -/
theorem lookup_append_not_key {β : Type} (k : String) (v : β) :
    ∀ (m : List (String × β)), (∀ p ∈ m, p.1 ≠ k) →
      List.lookup k (m ++ [(k, v)]) = some v := by
  intro m
  induction m with
  | nil => simp [List.lookup]
  | cons hd tl ih =>
    intro h
    obtain ⟨k0, v0⟩ := hd
    have hne : k ≠ k0 := fun hcon => (h (k0, v0) (List.mem_cons_self _ _)) (by simp [hcon])
    simp only [List.cons_append, List.lookup, beq_eq_false_iff_ne.mpr hne]
    exact ih (fun p hp => h p (List.mem_cons_of_mem _ hp))

/-- Setting a key in an association list makes lookup return the new
value. -/
theorem lookup_alistSet_self {β : Type} (k : String) (v : β) (l : List (String × β)) :
    List.lookup k (alistSet k v l) = some v := by
  unfold alistSet
  refine lookup_append_not_key k v (alistErase k l) (fun p hp => ?_)
  unfold alistErase at hp
  exact bne_iff_ne.mp (List.mem_filter.mp hp).2

/-- The per-product caching loop never touches the query-result cache. -/
theorem foldl_cacheStep_product_cache :
    ∀ (l : List (Nat × ProductRequest.Product)) (acc : ProductRequest.Cache),
      (l.foldl ProductRequest.cacheStep acc).product_cache = acc.product_cache := by
  intro l
  induction l with
  | nil => intro acc; rfl
  | cons hd tl ih =>
    intro acc
    rw [List.foldl_cons, ih]
    unfold ProductRequest.cacheStep
    split <;> rfl

/-- `cacheProducts` stores the result under the normalized key in the
query-result cache. -/
theorem cacheProducts_product_cache (c : ProductRequest.Cache) (key : String)
    (result : ProductRequest.ApiResult) :
    (ProductRequest.cacheProducts c key result).product_cache
      = alistSet key result c.product_cache := by
  unfold ProductRequest.cacheProducts
  rw [foldl_cacheStep_product_cache]

/-- Claim C5: a cached non-empty result for the normalized query is
returned without a vendor call and without touching the cache; a cached
empty result is evicted and a fresh vendor fetch is performed, after
which the key maps to the fresh result if it has products and to nothing
otherwise. -/
theorem claim_C5_inventory_cache (c : ProductRequest.Cache) (q : String)
    (vendor : String → Option ProductRequest.ApiResult) :
    (∀ r, List.lookup (pyStrip (pyLower q)) c.product_cache = some r → r.products ≠ [] →
      ProductRequest.fetch_inventory_query c q vendor = (r, c, false))
    ∧ (∀ r, List.lookup (pyStrip (pyLower q)) c.product_cache = some r → r.products = [] →
        (ProductRequest.fetch_inventory_query c q vendor).2.2 = true
        ∧ List.lookup (pyStrip (pyLower q))
            (ProductRequest.fetch_inventory_query c q vendor).2.1.product_cache
          = (match vendor q with
             | some v => if v.products ≠ [] then some v else Option.none
             | Option.none => Option.none)) := by
  constructor
  · intro r hl hne
    simp only [ProductRequest.fetch_inventory_query, hl]
    rw [if_pos hne]
  · intro r hl he
    simp only [ProductRequest.fetch_inventory_query, hl]
    rw [if_neg (by simp [he])]
    cases hv : vendor q with
    | none =>
      simp only [ProductRequest.fetchFresh, hv]
      exact ⟨trivial, by simp [lookup_alistErase_self]⟩
    | some v =>
      by_cases hvp : v.products = []
      · simp only [ProductRequest.fetchFresh, hv]
        rw [if_neg (by simp [hvp])]
        exact ⟨rfl, by simp [lookup_alistErase_self, hvp]⟩
      · simp only [ProductRequest.fetchFresh, hv]
        rw [if_pos hvp]
        refine ⟨rfl, ?_⟩
        simp only [cacheProducts_product_cache, lookup_alistSet_self]
        rw [if_pos hvp]

/-- Witness for C5 at concrete inputs: a cache hit with products is
served without refetching, and a cached empty entry forces a vendor call
whose fresh result replaces it. -/
theorem claim_C5_inventory_cache_witness :
    ProductRequest.fetch_inventory_query
        { product_cache := [("acid", { products := [{ pid := some "p1" }] })] }
        " Acid " (fun _ => Option.none)
      = ({ products := [{ pid := some "p1" }] },
         { product_cache := [("acid", { products := [{ pid := some "p1" }] })] }, false)
    ∧ List.lookup "acid"
        (ProductRequest.fetch_inventory_query
          { product_cache := [("acid", { products := [] })] }
          " Acid " (fun _ => some { products := [{ pid := some "p2" }] })).2.1.product_cache
      = some { products := [{ pid := some "p2" }] } := by
  constructor
  · exact (claim_C5_inventory_cache
      { product_cache := [("acid", { products := [{ pid := some "p1" }] })] }
      " Acid " (fun _ => Option.none)).1
      { products := [{ pid := some "p1" }] } (by decide) (by decide)
  · have h := ((claim_C5_inventory_cache
      { product_cache := [("acid", { products := [] })] }
      " Acid " (fun _ => some { products := [{ pid := some "p2" }] })).2
      { products := [] } (by decide) (by decide)).2
    exact h.trans (by decide)

/-- Claim C9 counterexample: invoking the product-request handler on a
session owned by a different agent whose document lacks a history key
returns the stock hand-off message but mutates the session — the
`setdefault("history", [])` at line 163 runs before the ownership guard
at line 169 and adds an empty history field. -/
theorem claim_C9_counterexample :
    ProductRequest.handle_product_request (fun _ _ => Option.none) "hello"
        { agent := some "request_details" }
      = (stockHandoffMsg, { agent := some "request_details", history := some [] })
    ∧ ({ agent := some "request_details", history := some [] } : Session)
        ≠ { agent := some "request_details" } := by
  exact ⟨by decide, by decide⟩

/-- Claim C9 (amended): a handler invoked on a session owned by a
different agent returns the stock hand-off message; the request-details
and address-purpose handlers return the session exactly unchanged, while
the product-request handler first initializes a missing history key to an
empty list (and is otherwise unchanged — a session that already has a
history field is returned as-is). -/
theorem claim_C9_idle_handlers
    (ai1 : Session → String → Option ProductRequest.A1AiResp)
    (ai2 : Session → String → Option RequestDetails.A2AiResp)
    (fA : Session → List Address) (fI : Session → List Industry)
    (ai3 : Session → String → Option (String × AddressPurpose.A3Updates))
    (user_input : String) (s : Session) :
    (s.agent ≠ some "request_details" →
      RequestDetails.handle_request_details ai2 user_input s = (stockHandoffMsg, s))
    ∧ (s.agent ≠ some "address_purpose" →
      AddressPurpose.handle_address_purpose fA fI ai3 user_input s = (stockHandoffMsg, s))
    ∧ (s.agent ≠ some "product_request" →
      ProductRequest.handle_product_request ai1 user_input s
        = (stockHandoffMsg, { s with history := some (s.history.getD []) })) := by
  refine ⟨fun h => ?_, fun h => ?_, fun h => ?_⟩
  · unfold RequestDetails.handle_request_details
    rw [if_pos h]
  · unfold AddressPurpose.handle_address_purpose
    rw [if_pos h]
  · unfold ProductRequest.handle_product_request
    rw [if_pos h]

/-- Witness for the amended C9 theorem: the request-details handler on a
session owned by Agent 3 hands off without changing the session. -/
theorem claim_C9_idle_handlers_witness :
    RequestDetails.handle_request_details (fun _ _ => Option.none) "hi"
        { agent := some "address_purpose", history := some [] }
      = (stockHandoffMsg, { agent := some "address_purpose", history := some [] }) :=
  (claim_C9_idle_handlers (fun _ _ => Option.none) (fun _ _ => Option.none)
    (fun _ => []) (fun _ => []) (fun _ _ => Option.none) "hi"
    { agent := some "address_purpose", history := some [] }).1 (by decide)

/-- A digit-string selection whose 1-based index is in range resolves to
that entry of the cached list. -/
theorem selectAddressResolve_digit_hit (cached : List Address) (ui d : String)
    (hd : AddressPurpose.isDigitStr d = true)
    (h1 : 1 ≤ AddressPurpose.digitsToNat d)
    (h2 : AddressPurpose.digitsToNat d - 1 < cached.length) :
    AddressPurpose.selectAddressResolve (AddressPurpose.AddrArg.str d) cached ui
      = some (cached.get ⟨AddressPurpose.digitsToNat d - 1, h2⟩) := by
  have hp : AddressPurpose.selectPrimary cached (AddressPurpose.AddrArg.str d)
      = some (cached.get ⟨AddressPurpose.digitsToNat d - 1, h2⟩) := by
    simp only [AddressPurpose.selectPrimary]
    rw [if_pos hd, if_pos ⟨h1, h2⟩, List.get?_eq_get h2]
  unfold AddressPurpose.selectAddressResolve
  rw [hp]

/-- A digit-string selection outside 1..length, with every bare number
in the utterance also out of range, resolves to nothing. -/
theorem selectAddressResolve_digit_miss (cached : List Address) (ui d : String)
    (hd : AddressPurpose.isDigitStr d = true)
    (hout : AddressPurpose.digitsToNat d = 0 ∨ cached.length < AddressPurpose.digitsToNat d)
    (hwords : ∀ w ∈ AddressPurpose.pyWords (pyLower ui), AddressPurpose.isDigitStr w = true →
      AddressPurpose.digitsToNat w = 0 ∨ cached.length < AddressPurpose.digitsToNat w) :
    AddressPurpose.selectAddressResolve (AddressPurpose.AddrArg.str d) cached ui
      = Option.none := by
  have hg : ¬ (1 ≤ AddressPurpose.digitsToNat d ∧ AddressPurpose.digitsToNat d - 1 < cached.length) := by
    rcases hout with h0 | hgt
    · rintro ⟨ha, _⟩; omega
    · rintro ⟨ha, hb⟩; omega
  have hp : AddressPurpose.selectPrimary cached (AddressPurpose.AddrArg.str d) = Option.none := by
    simp only [AddressPurpose.selectPrimary]
    rw [if_pos hd, if_neg hg]
  unfold AddressPurpose.selectAddressResolve
  rw [hp]
  by_cases hc : cached = []
  · rw [if_neg (fun hcon => hcon hc)]
  · rw [if_pos hc]
    refine List.findSome?_eq_none_iff.mpr (fun w hw => ?_)
    by_cases hdw : AddressPurpose.isDigitStr w = true
    · rw [if_pos hdw]
      have hg2 : ¬ (1 ≤ AddressPurpose.digitsToNat w ∧ AddressPurpose.digitsToNat w - 1 < cached.length) := by
        rcases hwords w hw hdw with h0 | hgt
        · rintro ⟨ha, _⟩; omega
        · rintro ⟨ha, hb⟩; omega
      rw [if_neg hg2]
    · rw [if_neg hdw]

/-- Claim C7: the literal digit string "2" selects the second (1-based)
entry of the cached address list whenever it exists; any digit-string
index outside 1..length — with every bare number in the user utterance
also out of range — yields the explicit error result and stores no
address. -/
theorem claim_C7_address_index_selection (s : Session) (user_input : String)
    (ord : AddressPurpose.OrderOutcome) (u : AddressPurpose.A3Updates) :
    (∀ h : 1 < s.cachedAddresses.length,
      AddressPurpose.processA3ToolCall s user_input ord u
          (AddressPurpose.A3Tool.select_address (AddressPurpose.AddrArg.str "2"))
        = ({ u with address := some (s.cachedAddresses.get ⟨1, h⟩) }, "success"))
    ∧ (∀ d : String, AddressPurpose.isDigitStr d = true →
        (AddressPurpose.digitsToNat d = 0 ∨ s.cachedAddresses.length < AddressPurpose.digitsToNat d) →
        (∀ w ∈ AddressPurpose.pyWords (pyLower user_input), AddressPurpose.isDigitStr w = true →
          AddressPurpose.digitsToNat w = 0 ∨ s.cachedAddresses.length < AddressPurpose.digitsToNat w) →
        AddressPurpose.processA3ToolCall s user_input ord u
            (AddressPurpose.A3Tool.select_address (AddressPurpose.AddrArg.str d))
          = (u, "error")) := by
  constructor
  · intro h
    have hsel := selectAddressResolve_digit_hit s.cachedAddresses user_input "2" rfl
      (by decide) (by exact h)
    simp only [AddressPurpose.processA3ToolCall, hsel]
    rfl
  · intro d hd hout hwords
    have hsel := selectAddressResolve_digit_miss s.cachedAddresses user_input d hd hout hwords
    simp only [AddressPurpose.processA3ToolCall, hsel]

/-- Witness for C7 at concrete inputs: with two cached addresses, "2"
selects the second one; "7" with a digit-free utterance errors without
storing an address. -/
theorem claim_C7_address_index_selection_witness :
    (AddressPurpose.processA3ToolCall
        { cachedAddresses := [{ aid := some "a1", addressLine := "First St" },
                              { aid := some "a2", addressLine := "Second Ave" }] }
        "pick 2" { status := "success" } {}
        (AddressPurpose.A3Tool.select_address (AddressPurpose.AddrArg.str "2"))).1.address
      = some { aid := some "a2", addressLine := "Second Ave" }
    ∧ AddressPurpose.processA3ToolCall
        { cachedAddresses := [{ aid := some "a1", addressLine := "First St" },
                              { aid := some "a2", addressLine := "Second Ave" }] }
        "no digits here" { status := "success" } {}
        (AddressPurpose.A3Tool.select_address (AddressPurpose.AddrArg.str "7"))
      = ({}, "error") := by
  constructor
  · rw [(claim_C7_address_index_selection
      { cachedAddresses := [{ aid := some "a1", addressLine := "First St" },
                            { aid := some "a2", addressLine := "Second Ave" }] }
      "pick 2" { status := "success" } {}).1 (by decide)]
    rfl
  · exact (claim_C7_address_index_selection
      { cachedAddresses := [{ aid := some "a1", addressLine := "First St" },
                            { aid := some "a2", addressLine := "Second Ave" }] }
      "no digits here" { status := "success" } {}).2 "7" (by decide) (by decide) (by decide)

/-- Claim C2 counterexample: on a session exactly as it stands after a
successful order placement, the placement tool branch contributed no
session updates (so the session is unchanged, with no terminal marker),
and a subsequent select_address tool call with index "2" still succeeds
and stores the second cached address instead of being rejected. -/
theorem claim_C2_counterexample :
    AddressPurpose.processA3ToolCall AddressPurpose.postPlacementSession "yes"
        { status := "success", message := "Order placed successfully!" } {}
        (AddressPurpose.A3Tool.place_order true)
      = ({}, "success")
    ∧ AddressPurpose.applyA3Updates AddressPurpose.postPlacementSession {}
      = AddressPurpose.postPlacementSession
    ∧ AddressPurpose.processA3ToolCall AddressPurpose.postPlacementSession "2"
        { status := "success" } {}
        (AddressPurpose.A3Tool.select_address (AddressPurpose.AddrArg.str "2"))
      = ({ address := some { aid := some "addr2", addressLine := "2 Second Avenue" } }, "success") := by
  exact ⟨by decide, by decide, by decide⟩

/-- Claim C2 (amended): a successful `place_order_request` leaves no
trace in the session — the placement tool branch never contributes
session updates, applying an empty update set is the identity, and a
subsequent select_address call is processed exactly as before placement,
committing any resolvable address with a success status rather than
refusing.  Refusal after placement exists only as prompt text. -/
theorem claim_C2_placement_not_terminal (s : Session) (user_input : String)
    (ord : AddressPurpose.OrderOutcome) (u : AddressPurpose.A3Updates) :
    (∀ b : Bool,
      (AddressPurpose.processA3ToolCall s user_input ord u (AddressPurpose.A3Tool.place_order b)).1 = u)
    ∧ AddressPurpose.applyA3Updates s {} = s
    ∧ (∀ (arg : AddressPurpose.AddrArg) (a : Address),
        AddressPurpose.selectAddressResolve arg s.cachedAddresses user_input = some a →
        AddressPurpose.processA3ToolCall s user_input ord u (AddressPurpose.A3Tool.select_address arg)
          = ({ u with address := some a }, "success")) := by
  refine ⟨fun b => ?_, ?_, fun arg a h => ?_⟩
  · cases b <;> simp only [AddressPurpose.processA3ToolCall] <;> split <;> rfl
  · rfl
  · simp only [AddressPurpose.processA3ToolCall, h]

/-- Witness for the amended C2 theorem applied to the post-placement
session: select_address "2" still commits the second cached address. -/
theorem claim_C2_placement_not_terminal_witness :
    AddressPurpose.processA3ToolCall AddressPurpose.postPlacementSession "please use 2"
        { status := "success" } {}
        (AddressPurpose.A3Tool.select_address (AddressPurpose.AddrArg.str "2"))
      = ({ address := some { aid := some "addr2", addressLine := "2 Second Avenue" } }, "success") :=
  (claim_C2_placement_not_terminal AddressPurpose.postPlacementSession "please use 2"
    { status := "success" } {}).2.2 (AddressPurpose.AddrArg.str "2")
    { aid := some "addr2", addressLine := "2 Second Avenue" } (by decide)

/-- Claim C3 counterexample: for a PPR session, order placement uses the
very same `/order/placeOrder` endpoint and multipart-form payload as an
Order session — there is no dedicated JSON "create requirement" path in
the code. -/
theorem claim_C3_counterexample :
    (OrderPlacement.buildPlaceOrderCall OrderPlacement.pprSession).map (fun c => c.url)
      = some OrderPlacement.place_order_url
    ∧ (OrderPlacement.buildPlaceOrderCall OrderPlacement.pprSession).map (fun c => c.payload)
      = some OrderPlacement.PayloadKind.multipartForm
    ∧ (OrderPlacement.buildPlaceOrderCall OrderPlacement.pprSession).map (fun c => c.url)
      = (OrderPlacement.buildPlaceOrderCall OrderPlacement.orderSession).map (fun c => c.url) := by
  exact ⟨by decide, by decide, by decide⟩

/-- Claim C3 (amended): every request type, PPR included, is submitted
as a single multipart form to the placeOrder endpoint (given an auth
token); the result is a success exactly when the status is 200/201 with
a parsed body carrying error:false, or 206 with error:false or an
unparseable body. -/
theorem claim_C3_single_order_endpoint (s : Session) (hauth : truthyS s.userAuth = true)
    (http_status : Nat) (body : OrderPlacement.OrderBody) :
    (OrderPlacement.buildPlaceOrderCall s).map (fun c => c.url)
      = some OrderPlacement.place_order_url
    ∧ (OrderPlacement.buildPlaceOrderCall s).map (fun c => c.payload)
      = some OrderPlacement.PayloadKind.multipartForm
    ∧ ((OrderPlacement.classifyPlaceOrderResponse http_status body).status = "success"
        ↔ (((http_status = 200 ∨ http_status = 201)
              ∧ body = OrderPlacement.OrderBody.parsed (some false))
          ∨ (http_status = 206 ∧ (body = OrderPlacement.OrderBody.unparsable
              ∨ body = OrderPlacement.OrderBody.parsed (some false))))) := by
  refine ⟨?_, ?_, ?_⟩
  · unfold OrderPlacement.buildPlaceOrderCall
    rw [if_pos hauth]
    rfl
  · unfold OrderPlacement.buildPlaceOrderCall
    rw [if_pos hauth]
    rfl
  · by_cases h1 : http_status = 200 ∨ http_status = 201
    · cases body with
      | parsed ef =>
        simp only [OrderPlacement.classifyPlaceOrderResponse]
        rw [if_pos h1]
        by_cases hef : ef = some false
        · rw [if_pos hef]
          exact ⟨fun _ => Or.inl ⟨h1, by rw [hef]⟩, fun _ => rfl⟩
        · rw [if_neg hef]
          refine ⟨fun hcon => absurd hcon (by decide), fun hcon => ?_⟩
          rcases hcon with ⟨_, hb⟩ | ⟨h206, _⟩
          · injection hb with hb'
            exact (hef hb').elim
          · rcases h1 with h | h <;> omega
      | unparsable =>
        simp only [OrderPlacement.classifyPlaceOrderResponse]
        rw [if_pos h1]
        refine ⟨fun hcon => absurd hcon (by decide), fun hcon => ?_⟩
        rcases hcon with ⟨_, hb⟩ | ⟨h206, _⟩
        · cases hb
        · rcases h1 with h | h <;> omega
    · by_cases h2 : http_status = 206
      · cases body with
        | parsed ef =>
          simp only [OrderPlacement.classifyPlaceOrderResponse]
          rw [if_neg h1, if_pos h2]
          by_cases hef : ef = some false
          · rw [if_pos hef]
            exact ⟨fun _ => Or.inr ⟨h2, Or.inr (by rw [hef])⟩, fun _ => rfl⟩
          · rw [if_neg hef]
            refine ⟨fun hcon => absurd hcon (by decide), fun hcon => ?_⟩
            rcases hcon with ⟨ha, _⟩ | ⟨_, hb | hb⟩
            · exact (h1 ha).elim
            · cases hb
            · injection hb with hb'
              exact (hef hb').elim
        | unparsable =>
          simp only [OrderPlacement.classifyPlaceOrderResponse]
          rw [if_neg h1, if_pos h2]
          exact ⟨fun _ => Or.inr ⟨h2, Or.inl trivial⟩, fun _ => rfl⟩
      · simp only [OrderPlacement.classifyPlaceOrderResponse]
        rw [if_neg h1, if_neg h2]
        refine ⟨fun hcon => absurd hcon (by simp), fun hcon => ?_⟩
        rcases hcon with ⟨ha, _⟩ | ⟨ha, _⟩
        · exact (h1 ha).elim
        · exact (h2 ha).elim

/-- Witness for the amended C3 theorem: a 201 response with error:false
classifies as success, and the PPR session produces an HTTP call. -/
theorem claim_C3_single_order_endpoint_witness :
    (OrderPlacement.classifyPlaceOrderResponse 201
        (OrderPlacement.OrderBody.parsed (some false))).status = "success"
    ∧ (OrderPlacement.buildPlaceOrderCall OrderPlacement.pprSession).map (fun c => c.url)
      = some OrderPlacement.place_order_url := by
  have h := claim_C3_single_order_endpoint OrderPlacement.pprSession (by decide) 201
    (OrderPlacement.OrderBody.parsed (some false))
  exact ⟨h.2.2.mpr (Or.inl ⟨Or.inr rfl, rfl⟩), h.1⟩

end ClaimTheorems
